import Mathlib

/-!
Verification development for the RepoPulse forecast and calibration engine
(scripts/daily.py and scripts/score.py).

The Python sources are shallowly embedded: integer arithmetic is modelled by
`ℤ`/`ℕ`, exact float arithmetic on decimal literals by `ℚ` where the source
only adds, multiplies and compares such values, and the transcendental model
formulas (log10, logistic) by `ℝ`.  Python's `int(...)` truncation and
`round(...)` (banker's rounding, halves to even) are modelled explicitly.
Fallible code (HTTP fetches that can raise, the `rows[0]` subscript) is
modelled with `Except`.
-/

namespace RepoPulse

/-- Python `int(x)` applied to a number: truncation toward zero. -/
def pyInt (x : ℚ) : ℤ := if 0 ≤ x then ⌊x⌋ else ⌈x⌉

/-- Python `round(x)` on rationals: nearest integer, halves to even. -/
def pyRoundQ (x : ℚ) : ℤ := if x - ⌊x⌋ = 1 / 2 then 2 * round (x / 2) else round x

/-- Python `round(x, nd)`: rounding to `nd` decimal digits. -/
def round_to (nd : ℕ) (x : ℚ) : ℚ := (pyRoundQ (x * 10 ^ nd) : ℚ) / 10 ^ nd

/-- daily.py line 82: `breakout_threshold = int(max(200, 0.5 * stars_now))`.
The float product `0.5 * stars_now` is exact, so `ℚ` models it faithfully. -/
def breakout_threshold (stars_now : ℕ) : ℤ := pyInt (max 200 ((0.5 : ℚ) * stars_now))

/-- Modelled from the spec: `breakout_threshold_7d = max(200, round(0.5 · stars_now))`,
the spec's wording with a true rounding of the half product (the code instead
truncates).  Used only to compare the spec formula with the code formula. -/
def spec_breakout_threshold (stars_now : ℕ) : ℤ :=
  max 200 (round ((0.5 : ℚ) * stars_now))

/-! ## Data model for scoring (score.py) -/

/-- Telemetry JSON body as consumed by both scripts: the only field the scored
computations read is `stargazers_count`, which may be absent from the response
(`repo.get("stargazers_count", 0)`). -/
structure RepoJson where
  stargazers_count : Option ℤ
  deriving Repr, DecidableEq

/-- One prediction record, as read back from `predictions_<date>.json`
(the fields score.py actually uses). -/
structure Prediction where
  full_name : String
  html_url : String
  stars_now : ℤ
  breakout_threshold_7d : ℤ
  p_breakout_7d : ℚ
  stars_pred_7d : ℤ
  deriving Repr, DecidableEq

/-- One outcome row appended to `outcomes.csv` (score.py lines 52-66). -/
structure OutcomeRow where
  full_name : String
  html_url : String
  stars_at_prediction : ℤ
  stars_after_7d : ℤ
  delta_stars : ℤ
  breakout_threshold : ℤ
  breakout_actual : ℤ
  p_breakout_7d : ℚ
  brier_score : ℚ
  stars_pred_7d : ℤ
  abs_error_stars : ℤ
  deriving Repr, DecidableEq

/-- score.py lines 24-25: `brier(p, y) = (p - y) ** 2`. -/
def brier (p y : ℚ) : ℚ := (p - y) ^ 2

/-- score.py line 46 (and daily.py line 63): `int(repo.get("stargazers_count", 0))`:
a response lacking the field silently contributes `0`. -/
def stars_then_of (repo : RepoJson) : ℤ := repo.stargazers_count.getD 0

/-- daily.py line 63: `stars_now = int(repo.get("stargazers_count", 0))`. -/
def stars_now_of (repo : RepoJson) : ℤ := repo.stargazers_count.getD 0

/-- score.py line 48: `delta = stars_then - stars_at_pred`. -/
def delta_of (p : Prediction) (repo : RepoJson) : ℤ :=
  stars_then_of repo - p.stars_now

/-- score.py line 50: `y = 1 if delta >= threshold else 0`. -/
def y_of (p : Prediction) (repo : RepoJson) : ℤ :=
  if p.breakout_threshold_7d ≤ delta_of p repo then 1 else 0

/-- score.py line 53: `bs = brier(prob, y)`. -/
def bs_of (p : Prediction) (repo : RepoJson) : ℚ :=
  brier p.p_breakout_7d (y_of p repo : ℚ)

/-- score.py line 57: `ae = abs(stars_then - stars_pred)`. -/
def ae_of (p : Prediction) (repo : RepoJson) : ℤ :=
  |stars_then_of repo - p.stars_pred_7d|

/-- score.py lines 52-66: the dict appended to `rows` for one prediction.
Note the stored `brier_score` is `round(bs, 6)`. -/
def scoreRow (p : Prediction) (repo : RepoJson) : OutcomeRow :=
  { full_name := p.full_name
    html_url := p.html_url
    stars_at_prediction := p.stars_now
    stars_after_7d := stars_then_of repo
    delta_stars := delta_of p repo
    breakout_threshold := p.breakout_threshold_7d
    breakout_actual := y_of p repo
    p_breakout_7d := p.p_breakout_7d
    brier_score := round_to 6 (bs_of p repo)
    stars_pred_7d := p.stars_pred_7d
    abs_error_stars := ae_of p repo }

/-- score.py line 68: `mean_brier = sum(brier_scores) / max(1, len(brier_scores))`. -/
def mean_brier_of (brier_scores : List ℚ) : ℚ :=
  brier_scores.sum / ((max 1 brier_scores.length : ℕ) : ℚ)

/-- score.py line 69: `mean_mae = sum(abs_errors) / max(1, len(abs_errors))`. -/
def mean_mae_of (abs_errors : List ℤ) : ℚ :=
  ((abs_errors.sum : ℤ) : ℚ) / ((max 1 abs_errors.length : ℕ) : ℚ)

/-- Exceptions the scoring run can raise: `raise_for_status` on a missing
repository (score.py lines 19-22) and the `rows[0]` subscript on an empty
batch (score.py line 74). -/
inductive PyError where
  | httpError (full_name : String)
  | indexError
  deriving Repr, DecidableEq

/-- Per-date summary record (score.py lines 76-82). -/
structure Summary where
  n : ℕ
  mean_brier : ℚ
  mean_mae_stars : ℚ
  deriving Repr, DecidableEq

/-- Observable effects of one scoring run: rows appended to the outcome
ledger, the summary written (if any), and console messages. -/
structure RunEffects where
  appended : List OutcomeRow
  summary : Option Summary
  log : List String
  deriving Repr, DecidableEq

/-- score.py lines 19-22: `gh_get` either returns the JSON body or raises
(`raise_for_status`) when the telemetry provider has no such repository. -/
def gh_get (provider : String → Option RepoJson) (full_name : String) :
    Except PyError RepoJson :=
  match provider full_name with
  | some repo => Except.ok repo
  | none => Except.error (PyError.httpError full_name)

/-- score.py `main` (lines 27-97), with I/O abstracted: `preds?` is the
prediction batch for the target date (`none` when no predictions file
exists), `provider` is the telemetry provider.  The loop (lines 43-66)
fetches one repository at a time and fails the whole run on the first
fetch error; nothing is written until the loop has finished.  On an empty
batch the means are still computed (division floored at 1) but the
`rows[0].keys()` subscript at line 74 raises IndexError before any write. -/
def scoreMain (preds? : Option (List Prediction))
    (provider : String → Option RepoJson) : Except PyError RunEffects :=
  match preds? with
  | none =>
    Except.ok { appended := []
                summary := none
                log := ["No predictions file for target date, nothing to score."] }
  | some preds => do
    let fetched ← preds.mapM (fun p => do
      let repo ← gh_get provider p.full_name
      pure (p, repo))
    let rows := fetched.map (fun pr => scoreRow pr.1 pr.2)
    let brier_scores := fetched.map (fun pr => bs_of pr.1 pr.2)
    let abs_errors := fetched.map (fun pr => ae_of pr.1 pr.2)
    let mean_brier := mean_brier_of brier_scores
    let mean_mae := mean_mae_of abs_errors
    match rows with
    | [] => Except.error PyError.indexError
    | _ :: _ =>
      Except.ok { appended := rows
                  summary := some { n := rows.length
                                    mean_brier := round_to 6 mean_brier
                                    mean_mae_stars := round_to 3 mean_mae }
                  log := ["Scored rows appended."] }

/-! ## The breakout model (daily.py), over the reals -/

noncomputable section

/-- daily.py lines 28-29: `clamp(x, lo, hi) = max(lo, min(hi, x))`
(called in line 80 with the default bounds `lo = 0.0, hi = 1.0`). -/
def clamp (x lo hi : ℝ) : ℝ := max lo (min hi x)

/-- daily.py lines 32-33: `logistic(z) = 1.0 / (1.0 + math.exp(-z))`. -/
def logistic (z : ℝ) : ℝ := 1 / (1 + Real.exp (-z))

/-- Base-ten logarithm, `math.log10`. -/
def log10 (x : ℝ) : ℝ := Real.logb 10 x

/-- Python `round(x)` on reals: nearest integer, halves to even.  On a half
(`x - ⌊x⌋ = 1/2`) the value `2 * round (x / 2)` is the even neighbour; away
from halves it agrees with Mathlib's `round`. -/
def pyRound (x : ℝ) : ℤ := if x - ⌊x⌋ = 1 / 2 then 2 * round (x / 2) else round x

/-- daily.py line 71: `stars_per_day = stars_now / age_days`. -/
def stars_per_day (stars_now : ℕ) (age_days : ℝ) : ℝ := (stars_now : ℝ) / age_days

/-- daily.py lines 73-79: the linear score
`z = 0.9*log10(stars_per_day + 0.01) - 0.25*since_push_days + 0.15*log10(forks_now + 1)`. -/
def z_score (spd since_push_days : ℝ) (forks_now : ℕ) : ℝ :=
  0.9 * log10 (spd + 0.01) - 0.25 * since_push_days + 0.15 * log10 ((forks_now : ℝ) + 1)

/-- daily.py line 80: `p_breakout = clamp(logistic(z))`. -/
def p_breakout (stars_now forks_now : ℕ) (age_days since_push_days : ℝ) : ℝ :=
  clamp (logistic (z_score (stars_per_day stars_now age_days) since_push_days forks_now)) 0 1

/-- The growth multiplier `(0.8 + 0.6 * p_breakout)` of daily.py line 85. -/
def growthMult (p : ℝ) : ℝ := 0.8 + 0.6 * p

/-- The pre-rounding band half-width `0.25 * breakout_threshold * (1.0 - p_breakout)`
of daily.py line 87. -/
def bandPre (threshold : ℤ) (p : ℝ) : ℝ := 0.25 * (threshold : ℝ) * (1 - p)

/-- daily.py lines 84-86:
`stars_pred_7d = int(round(stars_now + (7 * stars_per_day * (0.8 + 0.6 * p_breakout))))`. -/
def stars_pred_7d (stars_now forks_now : ℕ) (age_days since_push_days : ℝ) : ℤ :=
  pyRound ((stars_now : ℝ) + 7 * stars_per_day stars_now age_days *
    growthMult (p_breakout stars_now forks_now age_days since_push_days))

/-- daily.py line 87: `band = int(round(max(25, 0.25 * breakout_threshold * (1.0 - p_breakout))))`. -/
def band (stars_now forks_now : ℕ) (age_days since_push_days : ℝ) : ℤ :=
  pyRound (max 25 (bandPre (breakout_threshold stars_now)
    (p_breakout stars_now forks_now age_days since_push_days)))

/-- daily.py line 88: `low = max(0, stars_pred_7d - band)`. -/
def stars_pred_low_7d (stars_now forks_now : ℕ) (age_days since_push_days : ℝ) : ℤ :=
  max 0 (stars_pred_7d stars_now forks_now age_days since_push_days -
    band stars_now forks_now age_days since_push_days)

/-- daily.py line 89: `high = stars_pred_7d + band`. -/
def stars_pred_high_7d (stars_now forks_now : ℕ) (age_days since_push_days : ℝ) : ℤ :=
  stars_pred_7d stars_now forks_now age_days since_push_days +
    band stars_now forks_now age_days since_push_days

end

/-! ## Helper lemmas -/

lemma logistic_pos (z : ℝ) : 0 < logistic z := by
  unfold logistic
  positivity

lemma logistic_lt_one (z : ℝ) : logistic z < 1 := by
  unfold logistic
  rw [div_lt_one (by positivity)]
  linarith [Real.exp_pos (-z)]

lemma p_breakout_mem (stars_now forks_now : ℕ) (age_days since_push_days : ℝ) :
    0 ≤ p_breakout stars_now forks_now age_days since_push_days ∧
      p_breakout stars_now forks_now age_days since_push_days ≤ 1 := by
  unfold p_breakout clamp
  exact ⟨le_max_left 0 _, max_le (by norm_num) (min_le_left _ _)⟩

lemma sub_one_lt_pyRound (x : ℝ) : x - 1 < (pyRound x : ℝ) := by
  unfold pyRound
  split
  · have h := Int.lt_floor_add_one (x / 2 + 1 / 2)
    have h2 : x / 2 - 1 / 2 < (round (x / 2) : ℝ) := by
      rw [round_eq]
      have := Int.floor_le (x / 2 + 1 / 2)
      linarith [Int.lt_floor_add_one (x / 2 + 1 / 2), Int.sub_one_lt_floor (x / 2 + 1 / 2)]
    push_cast
    linarith
  · rw [round_eq]
    have := Int.sub_one_lt_floor (x + 1 / 2)
    linarith

lemma le_pyRound_of_le (m : ℤ) (x : ℝ) (h : (m : ℝ) ≤ x) : m ≤ pyRound x := by
  have h1 := sub_one_lt_pyRound x
  have h2 : (m : ℝ) - 1 < (pyRound x : ℝ) := by linarith
  have h3 : m - 1 < pyRound x := by exact_mod_cast h2
  omega

lemma pyRound_eq_of (x : ℝ) (n : ℤ) (h1 : (n : ℝ) - 1 / 2 < x) (h2 : x < (n : ℝ) + 1 / 2) :
    pyRound x = n := by
  have hr : round x = n := by
    rw [round_eq]
    rw [Int.floor_eq_iff]
    constructor
    · linarith
    · linarith
  have hfr : ¬(x - ⌊x⌋ = 1 / 2) := by
    intro hc
    have hx : x = (⌊x⌋ : ℝ) + 1 / 2 := by linarith
    have ha : n ≤ ⌊x⌋ := by
      have : (n : ℝ) < (⌊x⌋ : ℝ) + 1 := by linarith
      exact_mod_cast Int.lt_add_one_iff.mp (by exact_mod_cast this)
    have hb : ⌊x⌋ < n := by
      have : (⌊x⌋ : ℝ) < (n : ℝ) := by linarith
      exact_mod_cast this
    omega
  unfold pyRound
  rw [if_neg hfr]
  exact hr

lemma breakout_threshold_eq (s : ℕ) : breakout_threshold s = max 200 ((s : ℤ) / 2) := by
  unfold breakout_threshold pyInt
  have hmax : (0 : ℚ) ≤ max 200 ((0.5 : ℚ) * s) := le_trans (by norm_num) (le_max_left _ _)
  rw [if_pos hmax]
  have hhalf : (0.5 : ℚ) * s = ((s : ℤ) : ℚ) / ((2 : ℕ) : ℚ) := by push_cast; ring
  rcases le_total ((0.5 : ℚ) * s) 200 with h | h
  · rw [max_eq_left h]
    have hs : ((s : ℕ) : ℚ) ≤ 400 := by linarith
    have hs' : (s : ℤ) ≤ 400 := by exact_mod_cast hs
    have h2 : (s : ℤ) / 2 ≤ 200 := by omega
    rw [max_eq_left h2]
    norm_num
  · rw [max_eq_right h, hhalf, Rat.floor_intCast_div_natCast]
    have hs : (400 : ℚ) ≤ ((s : ℕ) : ℚ) := by linarith
    have hs' : (400 : ℤ) ≤ (s : ℤ) := by exact_mod_cast hs
    have h2 : (200 : ℤ) ≤ (s : ℤ) / 2 := by omega
    rw [max_eq_right h2]
    norm_num

lemma breakout_threshold_ge (s : ℕ) : 200 ≤ breakout_threshold s := by
  rw [breakout_threshold_eq]
  exact le_max_left _ _

/-! ## Claims -/

/-- C1 (counterexample): at `stars_now = 403` the code computes
`int(max(200, 0.5 * 403)) = int(201.5) = 201` (truncation), while the spec
formula `max(200, round(0.5 * 403))` gives `202`; moreover
`breakout_threshold_7d ≥ 0.5 * stars_now` fails there (`201 < 201.5`).  So
the claim as stated is false. -/
theorem claim_C1_cex :
    breakout_threshold 403 = 201 ∧ spec_breakout_threshold 403 = 202 ∧
      ¬((0.5 : ℚ) * (403 : ℕ) ≤ ((breakout_threshold 403 : ℤ) : ℚ)) := by
  have h1 : breakout_threshold 403 = 201 := by
    rw [breakout_threshold_eq]
    decide
  have h2 : spec_breakout_threshold 403 = 202 := by
    unfold spec_breakout_threshold
    have hv : (0.5 : ℚ) * ((403 : ℕ) : ℚ) = 403 / 2 := by norm_num
    rw [hv, round_eq]
    norm_num
  refine ⟨h1, h2, ?_⟩
  rw [h1]
  push_cast
  norm_num

/-- C1 (amended): for every telemetry input with `stars_now ≥ 0`, the
prediction's `breakout_threshold_7d` equals `max(200, floor(0.5 * stars_now))`
(the code truncates, it does not round); consequently it is always `≥ 200`
and always `≥ 0.5 * stars_now - 1/2`. -/
theorem claim_C1 (stars_now : ℕ) :
    breakout_threshold stars_now = max 200 ((stars_now : ℤ) / 2) ∧
    200 ≤ breakout_threshold stars_now ∧
    (0.5 : ℚ) * stars_now - 1 / 2 ≤ ((breakout_threshold stars_now : ℤ) : ℚ) := by
  refine ⟨breakout_threshold_eq _, breakout_threshold_ge _, ?_⟩
  rw [breakout_threshold_eq]
  have h1 : (stars_now : ℤ) / 2 ≤ max 200 ((stars_now : ℤ) / 2) := le_max_right _ _
  have h3 : (stars_now : ℤ) - 1 ≤ 2 * ((stars_now : ℤ) / 2) := by omega
  have h4 : ((stars_now : ℕ) : ℚ) - 1 ≤ 2 * (((stars_now : ℤ) / 2 : ℤ) : ℚ) := by
    exact_mod_cast h3
  have h5 : (((stars_now : ℤ) / 2 : ℤ) : ℚ) ≤ ((max 200 ((stars_now : ℤ) / 2) : ℤ) : ℚ) := by
    exact_mod_cast h1
  linarith

/-- C2: for all inputs with `stars_now, forks_now ≥ 0` and `age_days ≥ 1`
(every FeatureSet the extractor can produce), the computed breakout
probability `p_breakout_7d` lies in the closed interval `[0, 1]`. -/
theorem claim_C2 (stars_now forks_now : ℕ) (age_days since_push_days : ℝ)
    (_hage : 1 ≤ age_days) :
    0 ≤ p_breakout stars_now forks_now age_days since_push_days ∧
      p_breakout stars_now forks_now age_days since_push_days ≤ 1 :=
  p_breakout_mem stars_now forks_now age_days since_push_days

/-- C2 witness: the bound instantiated at the worked example inputs. -/
theorem claim_C2_witness :
    (1 : ℝ) ≤ 10 ∧
      (0 ≤ p_breakout 1000 50 10 0 ∧ p_breakout 1000 50 10 0 ≤ 1) :=
  ⟨by norm_num, claim_C2 1000 50 10 0 (by norm_num)⟩

/-- C3: for every prediction produced by the breakout model (inputs with
`age_days ≥ 1`), `stars_pred_low_7d ≤ stars_pred_7d ≤ stars_pred_high_7d`
and `stars_pred_low_7d ≥ 0`. -/
theorem claim_C3 (stars_now forks_now : ℕ) (age_days since_push_days : ℝ)
    (hage : 1 ≤ age_days) :
    stars_pred_low_7d stars_now forks_now age_days since_push_days ≤
        stars_pred_7d stars_now forks_now age_days since_push_days ∧
      stars_pred_7d stars_now forks_now age_days since_push_days ≤
        stars_pred_high_7d stars_now forks_now age_days since_push_days ∧
      0 ≤ stars_pred_low_7d stars_now forks_now age_days since_push_days := by
  have hb : (25 : ℤ) ≤ band stars_now forks_now age_days since_push_days := by
    unfold band
    apply le_pyRound_of_le
    push_cast
    exact le_max_left _ _
  have hp0 := (p_breakout_mem stars_now forks_now age_days since_push_days).1
  have hpred : (0 : ℤ) ≤ stars_pred_7d stars_now forks_now age_days since_push_days := by
    unfold stars_pred_7d
    apply le_pyRound_of_le
    have hspd : 0 ≤ stars_per_day stars_now age_days :=
      div_nonneg (Nat.cast_nonneg stars_now) (by linarith)
    have hg : 0 ≤ growthMult (p_breakout stars_now forks_now age_days since_push_days) := by
      unfold growthMult
      linarith
    have hprod : 0 ≤ 7 * stars_per_day stars_now age_days *
        growthMult (p_breakout stars_now forks_now age_days since_push_days) :=
      mul_nonneg (mul_nonneg (by norm_num) hspd) hg
    push_cast
    have hcast : (0 : ℝ) ≤ (stars_now : ℝ) := Nat.cast_nonneg stars_now
    linarith
  refine ⟨?_, ?_, ?_⟩
  · unfold stars_pred_low_7d
    exact max_le hpred (sub_le_self _ (by linarith))
  · unfold stars_pred_high_7d
    linarith
  · unfold stars_pred_low_7d
    exact le_max_left _ _

/-- C3 witness: the band invariant instantiated at the worked example inputs. -/
theorem claim_C3_witness :
    (1 : ℝ) ≤ 10 ∧
      (stars_pred_low_7d 1000 50 10 0 ≤ stars_pred_7d 1000 50 10 0 ∧
        stars_pred_7d 1000 50 10 0 ≤ stars_pred_high_7d 1000 50 10 0 ∧
        0 ≤ stars_pred_low_7d 1000 50 10 0) :=
  ⟨by norm_num, claim_C3 1000 50 10 0 (by norm_num)⟩

/-- C8: holding the other inputs fixed, increasing `p_breakout_7d` strictly
decreases the pre-rounding band value `0.25 * breakout_threshold_7d * (1 - p)`;
once the pre-rounding value is at or below the floor of 25 the banded value
`max 25 _` stays at 25; and the growth multiplier `0.8 + 0.6 * p` strictly
increases. -/
theorem claim_C8 (stars_now : ℕ) (p1 p2 : ℝ) (hlt : p1 < p2) :
    bandPre (breakout_threshold stars_now) p2 < bandPre (breakout_threshold stars_now) p1 ∧
      (bandPre (breakout_threshold stars_now) p1 ≤ 25 →
        max 25 (bandPre (breakout_threshold stars_now) p2) = 25) ∧
      growthMult p1 < growthMult p2 := by
  have hT : (200 : ℝ) ≤ ((breakout_threshold stars_now : ℤ) : ℝ) := by
    exact_mod_cast breakout_threshold_ge stars_now
  have hband : bandPre (breakout_threshold stars_now) p2 <
      bandPre (breakout_threshold stars_now) p1 := by
    unfold bandPre
    have hpos := mul_pos
      (show (0 : ℝ) < ((breakout_threshold stars_now : ℤ) : ℝ) by linarith)
      (sub_pos.mpr hlt)
    nlinarith [hpos]
  refine ⟨hband, fun hle => max_eq_left (by linarith), ?_⟩
  unfold growthMult
  linarith

/-- C8 witness: monotonicity instantiated at `stars_now = 1000`,
`p = 0.5` against `p = 0.6`. -/
theorem claim_C8_witness :
    (0.5 : ℝ) < 0.6 ∧
      (bandPre (breakout_threshold 1000) 0.6 < bandPre (breakout_threshold 1000) 0.5 ∧
        (bandPre (breakout_threshold 1000) 0.5 ≤ 25 →
          max 25 (bandPre (breakout_threshold 1000) 0.6) = 25) ∧
        growthMult 0.5 < growthMult 0.6) :=
  ⟨by norm_num, claim_C8 1000 0.5 0.6 (by norm_num)⟩

/-- C4: the empty-batch means.  The division floor `max(1, len(...))` does
define both means as `0` on an empty batch, but the run then raises
IndexError at `rows[0].keys()` (score.py line 74) before any summary is
written, for every telemetry provider. -/
theorem claim_C4 (provider : String → Option RepoJson) :
    mean_brier_of [] = 0 ∧ mean_mae_of [] = 0 ∧
      scoreMain (some []) provider = Except.error PyError.indexError := by
  refine ⟨?_, ?_, rfl⟩
  · simp [mean_brier_of]
  · simp [mean_mae_of]

/-- Prediction for a repository still present at scoring time. -/
def predA : Prediction :=
  { full_name := "owner/alive"
    html_url := "https://example.com/a"
    stars_now := 1000
    breakout_threshold_7d := 500
    p_breakout_7d := 0.886
    stars_pred_7d := 1932 }

/-- Prediction for a repository deleted before scoring time. -/
def predB : Prediction :=
  { full_name := "owner/deleted"
    html_url := "https://example.com/b"
    stars_now := 300
    breakout_threshold_7d := 200
    p_breakout_7d := 0.5
    stars_pred_7d := 350 }

/-- Telemetry provider that knows `owner/alive` but not `owner/deleted`. -/
def providerAB : String → Option RepoJson := fun full_name =>
  if full_name = "owner/alive" then some { stargazers_count := some 1600 } else none

/-- C5: a batch containing one live and one deleted repository.  The fetch
for the deleted repository raises (`raise_for_status`), the whole run
aborts with that exception, no row is appended and no summary (with or
without a skipped count) is written — the claimed per-row skip does not
happen. -/
theorem claim_C5 :
    scoreMain (some [predA, predB]) providerAB =
      Except.error (PyError.httpError "owner/deleted") := by
  rfl

/-- Prediction whose probability has four decimal places, so its squared
error has eight. -/
def pred0 : Prediction :=
  { full_name := "owner/sample"
    html_url := "https://example.com/s"
    stars_now := 100
    breakout_threshold_7d := 200
    p_breakout_7d := 0.1111
    stars_pred_7d := 150 }

/-- Telemetry observed for `pred0` at scoring time. -/
def repo0 : RepoJson := { stargazers_count := some 120 }

/-- C6 (counterexample): the stored `brier_score` field is
`round(bs, 6)`, so for `p_breakout_7d = 0.1111` and a non-breakout outcome
the row holds `0.012343`, not `(0.1111 - 0)^2 = 0.01234321`: the claimed
exact equality `brier_score = (p_breakout_7d - breakout_actual)^2` fails. -/
theorem claim_C6_cex :
    (scoreRow pred0 repo0).brier_score ≠
      (pred0.p_breakout_7d - ((scoreRow pred0 repo0).breakout_actual : ℚ)) ^ 2 := by
  have hy : (scoreRow pred0 repo0).breakout_actual = 0 := by
    simp [scoreRow, y_of, delta_of, stars_then_of, pred0, repo0]
  have hbs : bs_of pred0 repo0 = 0.01234321 := by
    simp [bs_of, brier, y_of, delta_of, stars_then_of, pred0, repo0]
    norm_num
  have hround : round_to 6 (0.01234321 : ℚ) = 0.012343 := by
    unfold round_to pyRoundQ
    have h1 : (0.01234321 : ℚ) * 10 ^ 6 = 12343.21 := by norm_num
    rw [h1]
    have h2 : ⌊(12343.21 : ℚ)⌋ = 12343 := by norm_num
    rw [if_neg (by rw [h2]; norm_num), round_eq]
    norm_num
  have hrow : (scoreRow pred0 repo0).brier_score = 0.012343 := by
    show round_to 6 (bs_of pred0 repo0) = 0.012343
    rw [hbs, hround]
  rw [hrow, hy]
  show (0.012343 : ℚ) ≠ (pred0.p_breakout_7d - ((0 : ℤ) : ℚ)) ^ 2
  show (0.012343 : ℚ) ≠ ((0.1111 : ℚ) - ((0 : ℤ) : ℚ)) ^ 2
  norm_num

/-- C6 (amended): for every scored prediction the outcome fields satisfy
`delta_stars = stars_after_7d - stars_now`, `breakout_actual` is `1` exactly
when `delta_stars ≥ breakout_threshold_7d` (and `0` otherwise),
`brier_score` is `(p_breakout_7d - breakout_actual)^2` rounded to six
decimal places, and `abs_error_stars = |stars_after_7d - stars_pred_7d|`. -/
theorem claim_C6 (p : Prediction) (repo : RepoJson) :
    (scoreRow p repo).delta_stars = (scoreRow p repo).stars_after_7d - p.stars_now ∧
      ((scoreRow p repo).breakout_actual = 1 ↔
        p.breakout_threshold_7d ≤ (scoreRow p repo).delta_stars) ∧
      ((scoreRow p repo).breakout_actual = 0 ↔
        ¬p.breakout_threshold_7d ≤ (scoreRow p repo).delta_stars) ∧
      (scoreRow p repo).brier_score =
        round_to 6 ((p.p_breakout_7d - ((scoreRow p repo).breakout_actual : ℚ)) ^ 2) ∧
      (scoreRow p repo).abs_error_stars =
        |(scoreRow p repo).stars_after_7d - p.stars_pred_7d| := by
  by_cases hc : p.breakout_threshold_7d ≤ delta_of p repo
  · refine ⟨rfl, ?_, ?_, ?_, rfl⟩
    · simp [scoreRow, y_of, hc, delta_of]
    · simp [scoreRow, y_of, hc, delta_of]
    · show round_to 6 (bs_of p repo) = _
      simp [bs_of, brier, scoreRow, y_of, hc]
  · refine ⟨rfl, ?_, ?_, ?_, rfl⟩
    · simp [scoreRow, y_of, hc, delta_of]
    · simp [scoreRow, y_of, hc, delta_of]
    · show round_to 6 (bs_of p repo) = _
      simp [bs_of, brier, scoreRow, y_of, hc]

/-- C9: when no prediction batch exists for the target date the scoring run
succeeds (no exception), appends nothing to the outcome ledger, writes no
summary, and reports the missing batch explicitly. -/
theorem claim_C9 (provider : String → Option RepoJson) :
    scoreMain none provider =
      Except.ok { appended := []
                  summary := none
                  log := ["No predictions file for target date, nothing to score."] } :=
  rfl

/-- Telemetry response whose JSON body lacks the `stargazers_count` field. -/
def missingStars : RepoJson := { stargazers_count := none }

/-- C10: a telemetry response lacking `stargazers_count` silently
contributes `0`: at prediction time `stars_now` is read as `0`; at scoring
time `stars_after_7d = 0`, hence `delta_stars = -stars_now`, and the row is
recorded as a normal outcome (the batch succeeds and a summary is written),
not skipped and not an error. -/
theorem claim_C10 (p : Prediction) :
    stars_now_of missingStars = 0 ∧
      (scoreRow p missingStars).stars_after_7d = 0 ∧
      (scoreRow p missingStars).delta_stars = -p.stars_now ∧
      ∃ eff, scoreMain (some [p]) (fun _ => some missingStars) = Except.ok eff ∧
        eff.appended = [scoreRow p missingStars] ∧ eff.summary.isSome = true := by
  refine ⟨rfl, rfl, ?_, ?_⟩
  · show delta_of p missingStars = -p.stars_now
    simp [delta_of, stars_then_of, missingStars]
  · exact ⟨_, rfl, rfl, rfl⟩

/-! ## Numeric bounds for the worked example (C7) -/

lemma one_sub_inv_le_log {x : ℝ} (hx : 0 < x) : 1 - x⁻¹ ≤ Real.log x := by
  have h := Real.log_le_sub_one_of_pos (inv_pos.mpr hx)
  rw [Real.log_inv] at h
  linarith

lemma log98_bounds : (1 / 9 : ℝ) ≤ Real.log (9 / 8) ∧ Real.log (9 / 8) ≤ 1 / 8 := by
  constructor
  · have h := one_sub_inv_le_log (show (0 : ℝ) < 9 / 8 by norm_num)
    have hv : (1 : ℝ) - (9 / 8 : ℝ)⁻¹ = 1 / 9 := by norm_num
    linarith
  · have h := Real.log_le_sub_one_of_pos (show (0 : ℝ) < 9 / 8 by norm_num)
    linarith

lemma log1716_bounds : (1 / 17 : ℝ) ≤ Real.log (17 / 16) ∧ Real.log (17 / 16) ≤ 1 / 16 := by
  constructor
  · have h := one_sub_inv_le_log (show (0 : ℝ) < 17 / 16 by norm_num)
    have hv : (1 : ℝ) - (17 / 16 : ℝ)⁻¹ = 1 / 17 := by norm_num
    linarith
  · have h := Real.log_le_sub_one_of_pos (show (0 : ℝ) < 17 / 16 by norm_num)
    linarith

lemma log109_bounds : (1 / 10 : ℝ) ≤ Real.log (10 / 9) ∧ Real.log (10 / 9) ≤ 1 / 9 := by
  constructor
  · have h := one_sub_inv_le_log (show (0 : ℝ) < 10 / 9 by norm_num)
    have hv : (1 : ℝ) - (10 / 9 : ℝ)⁻¹ = 1 / 10 := by norm_num
    linarith
  · have h := Real.log_le_sub_one_of_pos (show (0 : ℝ) < 10 / 9 by norm_num)
    linarith

lemma log_three_rel : 2 * Real.log 3 = 3 * Real.log 2 + Real.log (9 / 8) := by
  have e1 : Real.log 9 = 2 * Real.log 3 := by
    rw [show (9 : ℝ) = 3 ^ 2 by norm_num, Real.log_pow]
    push_cast
    ring_nf
  have e2 : Real.log 9 = 3 * Real.log 2 + Real.log (9 / 8) := by
    rw [show (9 : ℝ) = 2 ^ 3 * (9 / 8) by norm_num,
      Real.log_mul (by norm_num) (by norm_num), Real.log_pow]
    push_cast
    ring_nf
  linarith

lemma log_seventeen_rel : Real.log 17 = 4 * Real.log 2 + Real.log (17 / 16) := by
  rw [show (17 : ℝ) = 2 ^ 4 * (17 / 16) by norm_num,
    Real.log_mul (by norm_num) (by norm_num), Real.log_pow]
  push_cast
  ring_nf

lemma log51_bounds : (3.9266 : ℝ) ≤ Real.log 51 ∧ Real.log 51 ≤ 3.9374 := by
  have h2a := Real.log_two_gt_d9
  have h2b := Real.log_two_lt_d9
  obtain ⟨h98a, h98b⟩ := log98_bounds
  obtain ⟨h17a, h17b⟩ := log1716_bounds
  have h3 := log_three_rel
  have h17 := log_seventeen_rel
  have h51 : Real.log 51 = Real.log 3 + Real.log 17 := by
    rw [show (51 : ℝ) = 3 * 17 by norm_num, Real.log_mul (by norm_num) (by norm_num)]
  constructor
  · linarith
  · linarith

lemma log10_bounds : (2.2905 : ℝ) ≤ Real.log 10 ∧ Real.log 10 ≤ 2.3156 := by
  have h2a := Real.log_two_gt_d9
  have h2b := Real.log_two_lt_d9
  obtain ⟨h98a, h98b⟩ := log98_bounds
  obtain ⟨h109a, h109b⟩ := log109_bounds
  have h10 : Real.log 10 = 3 * Real.log 2 + Real.log (10 / 9) + Real.log (9 / 8) := by
    rw [show (10 : ℝ) = 2 ^ 3 * (10 / 9 * (9 / 8)) by norm_num,
      Real.log_mul (by norm_num) (by norm_num),
      Real.log_mul (by norm_num) (by norm_num), Real.log_pow]
    push_cast
    ring_nf
  constructor
  · linarith
  · linarith

lemma log_tiny_bounds :
    (0 : ℝ) ≤ Real.log (10001 / 10000) ∧ Real.log (10001 / 10000) ≤ 0.0001 := by
  constructor
  · exact Real.log_nonneg (by norm_num)
  · have h := Real.log_le_sub_one_of_pos (show (0 : ℝ) < 10001 / 10000 by norm_num)
    linarith

lemma z0_eq : z_score 100 0 50 =
    1.8 + (0.9 * Real.log (10001 / 10000) + 0.15 * Real.log 51) / Real.log 10 := by
  have hL : (0 : ℝ) < Real.log 10 := Real.log_pos (by norm_num)
  unfold z_score log10
  unfold Real.logb
  have h1 : (100 : ℝ) + 0.01 = 10 ^ 2 * (10001 / 10000) := by norm_num
  have h2 : ((50 : ℕ) : ℝ) + 1 = 51 := by norm_num
  rw [h1, h2, Real.log_mul (by norm_num) (by norm_num), Real.log_pow]
  push_cast
  field_simp
  ring

lemma z0_bounds : (2.0543 : ℝ) ≤ z_score 100 0 50 ∧ z_score 100 0 50 ≤ 2.0579 := by
  rw [z0_eq]
  obtain ⟨hLa, hLb⟩ := log10_bounds
  obtain ⟨h51a, h51b⟩ := log51_bounds
  obtain ⟨h1a, h1b⟩ := log_tiny_bounds
  have hL : (0 : ℝ) < Real.log 10 := by linarith
  constructor
  · have hnum : (0.58899 : ℝ) ≤ 0.9 * Real.log (10001 / 10000) + 0.15 * Real.log 51 := by
      linarith
    have hdiv : (0.58899 : ℝ) / 2.3156 ≤
        (0.9 * Real.log (10001 / 10000) + 0.15 * Real.log 51) / Real.log 10 :=
      div_le_div₀ (by linarith) hnum hL hLb
    linarith
  · have hnum : 0.9 * Real.log (10001 / 10000) + 0.15 * Real.log 51 ≤ 0.5907 := by
      linarith
    have hdiv : (0.9 * Real.log (10001 / 10000) + 0.15 * Real.log 51) / Real.log 10 ≤
        (0.5907 : ℝ) / 2.2905 :=
      div_le_div₀ (by norm_num) hnum (by norm_num) hLa
    linarith

lemma exp_z0_lb : (7.79 : ℝ) ≤ Real.exp (z_score 100 0 50) := by
  have hz := z0_bounds.1
  have hmono : Real.exp (2.0543 : ℝ) ≤ Real.exp (z_score 100 0 50) :=
    Real.exp_le_exp.mpr hz
  have hsplit : Real.exp (2.0543 : ℝ) = Real.exp 1 * Real.exp 1 * Real.exp 0.0543 := by
    rw [← Real.exp_add, ← Real.exp_add]
    norm_num
  have he := Real.exp_one_gt_d9
  have h3 : (1.0543 : ℝ) ≤ Real.exp 0.0543 := by
    have := Real.add_one_le_exp (0.0543 : ℝ)
    linarith
  have hee : (2.7182818283 : ℝ) * 2.7182818283 ≤ Real.exp 1 * Real.exp 1 :=
    mul_le_mul he.le he.le (by norm_num) (Real.exp_pos 1).le
  have hfull : (2.7182818283 : ℝ) * 2.7182818283 * 1.0543 ≤
      Real.exp 1 * Real.exp 1 * Real.exp 0.0543 :=
    mul_le_mul hee h3 (by norm_num) (by positivity)
  have hnum : (7.79 : ℝ) ≤ 2.7182818283 * 2.7182818283 * 1.0543 := by norm_num
  rw [hsplit] at hmono
  linarith

lemma exp_z0_ub : Real.exp (z_score 100 0 50) ≤ 7.8371 := by
  have hz := z0_bounds.2
  have hmono : Real.exp (z_score 100 0 50) ≤ Real.exp (2.0579 : ℝ) :=
    Real.exp_le_exp.mpr hz
  have hsplit : Real.exp (2.0579 : ℝ) =
      Real.exp 1 * Real.exp 1 * (Real.exp 0.02895 * Real.exp 0.02895) := by
    rw [← Real.exp_add, ← Real.exp_add, ← Real.exp_add]
    norm_num
  have hb : Real.exp (0.02895 : ℝ) ≤ (0.97105 : ℝ)⁻¹ := by
    have h1 := Real.add_one_le_exp (-0.02895 : ℝ)
    rw [Real.exp_neg] at h1
    have hp := Real.exp_pos (0.02895 : ℝ)
    have h2 : (0.97105 : ℝ) ≤ (Real.exp 0.02895)⁻¹ := by linarith
    have h3 := mul_le_mul_of_nonneg_left h2 hp.le
    rw [mul_inv_cancel₀ hp.ne'] at h3
    have h4 : (0.97105 : ℝ)⁻¹ = 1 / 0.97105 := by norm_num
    rw [h4]
    linarith
  have he := Real.exp_one_lt_d9
  have hee : Real.exp 1 * Real.exp 1 ≤ (2.7182818286 : ℝ) * 2.7182818286 :=
    mul_le_mul he.le he.le (Real.exp_pos 1).le (by norm_num)
  have hbb : Real.exp 0.02895 * Real.exp 0.02895 ≤ (0.97105 : ℝ)⁻¹ * (0.97105 : ℝ)⁻¹ :=
    mul_le_mul hb hb (Real.exp_pos _).le (by norm_num)
  have hfull : Real.exp 1 * Real.exp 1 * (Real.exp 0.02895 * Real.exp 0.02895) ≤
      (2.7182818286 : ℝ) * 2.7182818286 * ((0.97105 : ℝ)⁻¹ * (0.97105 : ℝ)⁻¹) :=
    mul_le_mul hee hbb (by positivity) (by norm_num)
  have hnum : (2.7182818286 : ℝ) * 2.7182818286 * ((0.97105 : ℝ)⁻¹ * (0.97105 : ℝ)⁻¹) ≤
      7.8371 := by norm_num
  rw [hsplit] at hmono
  linarith

lemma p0_eq : p_breakout 1000 50 10 0 = logistic (z_score 100 0 50) := by
  unfold p_breakout
  have hspd : stars_per_day 1000 10 = 100 := by
    unfold stars_per_day
    norm_num
  rw [hspd]
  have h1 := logistic_pos (z_score 100 0 50)
  have h2 := logistic_lt_one (z_score 100 0 50)
  unfold clamp
  rw [min_eq_right h2.le, max_eq_right h1.le]

lemma p0_bounds :
    (0.8862 : ℝ) ≤ p_breakout 1000 50 10 0 ∧ p_breakout 1000 50 10 0 ≤ 0.8869 := by
  rw [p0_eq]
  unfold logistic
  rw [Real.exp_neg]
  have hEpos := Real.exp_pos (z_score 100 0 50)
  have hElb := exp_z0_lb
  have hEub := exp_z0_ub
  set E := Real.exp (z_score 100 0 50) with hE
  have hinv_ub : E⁻¹ ≤ (7.79 : ℝ)⁻¹ := inv_anti₀ (by norm_num) hElb
  have hinv_lb : (7.8371 : ℝ)⁻¹ ≤ E⁻¹ := inv_anti₀ hEpos hEub
  have hEinv_pos : (0 : ℝ) < E⁻¹ := inv_pos.mpr hEpos
  constructor
  · have hd : (0 : ℝ) < 1 + E⁻¹ := by linarith
    have h1 : 1 + E⁻¹ ≤ 1 + (7.79 : ℝ)⁻¹ := by linarith
    have h2 : 1 / (1 + (7.79 : ℝ)⁻¹) ≤ 1 / (1 + E⁻¹) := one_div_le_one_div_of_le hd h1
    have h3 : (0.8862 : ℝ) ≤ 1 / (1 + (7.79 : ℝ)⁻¹) := by norm_num
    linarith
  · have hd : (0 : ℝ) < 1 + (7.8371 : ℝ)⁻¹ := by norm_num
    have h1 : 1 + (7.8371 : ℝ)⁻¹ ≤ 1 + E⁻¹ := by linarith
    have h2 : 1 / (1 + E⁻¹) ≤ 1 / (1 + (7.8371 : ℝ)⁻¹) := one_div_le_one_div_of_le hd h1
    have h3 : 1 / (1 + (7.8371 : ℝ)⁻¹) ≤ (0.8869 : ℝ) := by norm_num
    linarith

lemma threshold_1000 : breakout_threshold 1000 = 500 := by
  rw [breakout_threshold_eq]
  decide

/-- C7: on the worked example `stars_now = 1000`, `age_days = 10` (so
`stars_per_day = 100`), `forks_now = 50`, `since_push_days = 0`, the model
produces `p_breakout_7d ≈ 0.886` (within `0.001`),
`breakout_threshold_7d = 500`, `stars_pred_7d = 1932`, `band = 25`, and the
forecast interval `[1907, 1957]`. -/
theorem claim_C7 :
    breakout_threshold 1000 = 500 ∧
      stars_per_day 1000 10 = 100 ∧
      |p_breakout 1000 50 10 0 - 0.886| < 0.001 ∧
      stars_pred_7d 1000 50 10 0 = 1932 ∧
      band 1000 50 10 0 = 25 ∧
      stars_pred_low_7d 1000 50 10 0 = 1907 ∧
      stars_pred_high_7d 1000 50 10 0 = 1957 := by
  obtain ⟨hpa, hpb⟩ := p0_bounds
  have hspd : stars_per_day 1000 10 = 100 := by
    unfold stars_per_day
    norm_num
  have hpred : stars_pred_7d 1000 50 10 0 = 1932 := by
    unfold stars_pred_7d
    rw [hspd]
    apply pyRound_eq_of
    · unfold growthMult
      push_cast
      linarith
    · unfold growthMult
      push_cast
      linarith
  have hband : band 1000 50 10 0 = 25 := by
    unfold band
    rw [threshold_1000]
    have hle : bandPre 500 (p_breakout 1000 50 10 0) ≤ 25 := by
      unfold bandPre
      push_cast
      linarith
    rw [max_eq_left hle]
    apply pyRound_eq_of
    · push_cast
      norm_num
    · push_cast
      norm_num
  refine ⟨threshold_1000, hspd, ?_, hpred, hband, ?_, ?_⟩
  · rw [abs_lt]
    constructor
    · linarith
    · linarith
  · unfold stars_pred_low_7d
    rw [hpred, hband]
    decide
  · unfold stars_pred_high_7d
    rw [hpred, hband]
    decide

end RepoPulse
